import Mathlib

/-!
Verification of the Amazfit telemetry sync and decoding core
(backend/app/amazfit_service.py, backend/app/amazfit_login.py,
backend/app/main.py) against its natural-language specification.

Machine integers are modelled as Nat/Int, Python floats that the code
derives by exact division are modelled as Rat, base64/JSON structural
parsing is modelled by explicit parser parameters returning Option
(Python raises on structural failure, which the code catches), and the
relational store is modelled as explicit in-memory lists of rows.
-/

namespace Healthup


/-! ### TelemetryDecoder: paired 16-bit little-endian heart-rate decoding

Source: `AmazfitService.get_heart_rate_data` (amazfit_service.py,
lines 104-118).  The HTTP part of that method is elided; the decoding
loop over the base64-decoded byte string is embedded verbatim. -/

/-- Mapping of one 16-bit group, exactly the branch structure of the
source loop: `if value < 65535: (if value > 300: value //= 10); append`
else `append 0`. -/
def hrValue16 (value : Nat) : Nat :=
  if value < 65535 then (if value > 300 then value / 10 else value) else 0

/-- Decoding loop of `AmazfitService.get_heart_rate_data`: walk the byte
string two bytes at a time, each full pair read as a little-endian
unsigned 16-bit value (`struct.unpack_from("<H", blob, off)`), and a
dangling final byte contributing a trailing `0`. -/
def decodeHeartRate16 : List Nat → List Nat
  | [] => []
  | [_] => [0]
  | b0 :: b1 :: rest => hrValue16 (b0 + 256 * b1) :: decodeHeartRate16 rest

/-- Mapping rule as the specification words it: a raw value of 65535 is
the no-data sentinel and decodes to 0; a raw value greater than 300 is
divided by 10; every other raw value passes through unchanged. -/
def specHrValue16 (v : Nat) : Nat :=
  if v = 65535 then 0 else if v > 300 then v / 10 else v

/-- Successive 2-byte little-endian groups of a byte string, a dangling
final byte being dropped. -/
def leGroups : List Nat → List Nat
  | b0 :: b1 :: rest => (b0 + 256 * b1) :: leGroups rest
  | _ => []

/-! ### TelemetryDecoder: packed 8-bit per-minute heart-rate decoding

Source: `AmazfitService.decode_hr_blob` (amazfit_service.py, lines
367-386).  `b64` models `base64.b64decode`; a structural base64 failure
raises in Python, is caught by the method, and yields `[]`. -/

/-- Decoding of `AmazfitService.decode_hr_blob`: each byte of the
base64-decoded blob is one per-minute sample, values with
`30 <= value < 240` pass through, anything else becomes 0; a decode
failure is caught and yields the empty list. -/
def decode_hr_blob (b64 : String → Option (List Nat)) (blob : String) :
    List Nat :=
  match b64 blob with
  | none => []
  | some raw => raw.map (fun value => if 30 ≤ value ∧ value < 240 then value else 0)

/-! ### Sleep-group extraction

Source: the `slp` handling inside `AmazfitService.get_daily_summary`
(amazfit_service.py, lines 262-309).  A decoded sleep group is the
ordered key/value list of the JSON object (Python dicts preserve
insertion order, keys are unique).  Values are modelled as Int; the
derived hour fields (Python float division) are modelled as Rat.
`datetime.fromtimestamp(ts, utc) + 5h30` re-serialized as an epoch is
ts + 19800. -/

/-- Ordered key/value pairs of a decoded `slp` JSON group. -/
abbrev SlpGroup := List (String × Int)

/-- Fields of the `sleep_data` dict built by `get_daily_summary`; a
field is `some` exactly when the corresponding key is set. -/
structure SleepData where
  sleepTimeSeconds : Option Int := none
  sleepTimeHours : Option Rat := none
  sleepStart : Option Int := none
  sleepEnd : Option Int := none
  sleepStartUtc : Option Int := none
  sleepEndUtc : Option Int := none
  deepSleepMinutes : Option Int := none
  deepSleepHours : Option Rat := none
  lightSleepMinutes : Option Int := none
  lightSleepHours : Option Rat := none
  remSleepMinutes : Option Int := none
  remSleepHours : Option Rat := none
  awakeMinutes : Option Int := none
  awakeHours : Option Rat := none
  deriving Repr, DecidableEq

/-- Fallback loop of the source: the first entry whose value is positive
and whose key is neither "st" nor "ed". -/
def slpFallback : SlpGroup → Option Int
  | [] => none
  | (key, value) :: rest =>
    if 0 < value ∧ key ≠ "st" ∧ key ≠ "ed" then some value else slpFallback rest

/-- Sleep extraction of `get_daily_summary`: with both "st" and "ed"
present the duration is ed - st and the IST-shifted window is recorded;
otherwise the fallback loop supplies the duration; the stage fields
"dp", "lt", "rm", "wk" are projected afterwards in either case. -/
def extractSleepData (slp : SlpGroup) : SleepData :=
  let base : SleepData :=
    match slp.lookup "st", slp.lookup "ed" with
    | some st, some ed =>
      { sleepTimeSeconds := some (ed - st)
        sleepTimeHours := some (((ed - st : Int) : Rat) / 3600)
        sleepStart := some (st + 19800)
        sleepEnd := some (ed + 19800)
        sleepStartUtc := some st
        sleepEndUtc := some ed }
    | _, _ =>
      match slpFallback slp with
      | some v => { sleepTimeSeconds := some v, sleepTimeHours := some ((v : Rat) / 3600) }
      | none => {}
  { base with
    deepSleepMinutes := slp.lookup "dp"
    deepSleepHours := (slp.lookup "dp").map (fun v => (v : Rat) / 60)
    lightSleepMinutes := slp.lookup "lt"
    lightSleepHours := (slp.lookup "lt").map (fun v => (v : Rat) / 60)
    remSleepMinutes := slp.lookup "rm"
    remSleepHours := (slp.lookup "rm").map (fun v => (v : Rat) / 60)
    awakeMinutes := slp.lookup "wk"
    awakeHours := (slp.lookup "wk").map (fun v => (v : Rat) / 60) }

/-! ### Band-data summary decoding

Source: `AmazfitService.decode_band_summary` (amazfit_service.py,
lines 203-217).  `parse` models `json.loads(base64.b64decode(s + "=="))`
returning the decoded JSON object; a structural base64/JSON failure
raises in Python, is caught by the method's `except`, and falls through
to the `return {}`. -/

/-- Defensive projection of the `stp` JSON group. -/
structure StpGroup where
  ttl : Option Nat := none
  cal : Option Nat := none
  dis : Option Nat := none
  act : Option Nat := none
  deriving Repr, DecidableEq

/-- Defensive projection of the `hrv` JSON group. -/
structure HrvGroup where
  avg : Option Int := none
  deriving Repr, DecidableEq

/-- Decoded band summary: every nested group is optional. -/
structure DecodedSummary where
  stp : Option StpGroup := none
  slp : Option SlpGroup := none
  hrv : Option HrvGroup := none
  wkt : Option (List Int) := none
  evt : Option (List Int) := none
  deriving Repr, DecidableEq

/-- Empty summary dict returned on any decode failure. -/
def emptySummary : DecodedSummary := {}

/-- One entry of the band_data.json `data` array. -/
structure BandEntry where
  summary : Option String := none
  data_hr : Option String := none
  deriving Repr, DecidableEq

/-- Band_data.json response carrying a `data` array; a falsy response or
one without a usable `data` key is modelled as `none` at the use sites. -/
structure BandData where
  data : List BandEntry := []
  deriving Repr, DecidableEq

/-- Decoding of `AmazfitService.decode_band_summary`: a falsy or
`data`-less response or an empty `data` array yields `{}`; otherwise the
first entry's summary string is parsed, an absent or empty string and a
structural parse failure (caught exception) also yielding `{}`. -/
def decode_band_summary (parse : String → Option DecodedSummary)
    (band_data : Option BandData) : DecodedSummary :=
  match band_data with
  | none => emptySummary
  | some bd =>
    match bd.data with
    | [] => emptySummary
    | entry :: _ =>
      let summary_b64 := entry.summary.getD ""
      if summary_b64 = "" then emptySummary
      else (parse summary_b64).getD emptySummary

/-- Error the claim says structural parse failures surface as. -/
inductive DecodeError
  | decodeError
  deriving Repr, DecidableEq

/-- Modelled from the claim's words, for comparison with the source
function: decoding fails with `DecodeError` exactly when the base64/JSON
structure of the blob itself cannot be parsed, and succeeds otherwise. -/

def decodeSummaryClaim (parse : String → Option DecodedSummary)
    (band_data : Option BandData) : Except DecodeError DecodedSummary :=
  match band_data with
  | none => .ok emptySummary
  | some bd =>
    match bd.data with
    | [] => .ok emptySummary
    | entry :: _ =>
      let summary_b64 := entry.summary.getD ""
      if summary_b64 = "" then .ok emptySummary
      else
        match parse summary_b64 with
        | none => .error .decodeError
        | some d => .ok d

/-- Summary blob the decoder will attempt to parse: the non-empty
summary string of the first data entry, when there is one. -/
def summaryField (band_data : Option BandData) : Option String :=
  match band_data with
  | none => none
  | some bd =>
    match bd.data with
    | [] => none
    | entry :: _ =>
      let s := entry.summary.getD ""
      if s = "" then none else some s

/-! ### Daily summary assembly

Source: `AmazfitService.get_daily_summary` (amazfit_service.py, lines
219-365).  Remote endpoints are modelled as per-day results carried by a
`RemoteClient`; `.error` stands for an HTTP-level exception raised by
requests.  The v1 activity and sleep fallback endpoints return raw
dicts; they are typed here as the projected groups the rest of the code
reads from them (their raw-dict branches in `_process_activity_data` /
`_process_sleep_data` are thereby fixed to the shapes this code
produces).  `FetchEvent` records every remote invocation, so that
refresh/retry behaviour is visible in the trace. -/

/-- Projection of the `stp` group into the `summary['activity']` dict
(distance stays in meters here). -/
structure ActivityGroup where
  steps : Nat := 0
  calories : Nat := 0
  distance : Nat := 0
  activeMinutes : Nat := 0
  deriving Repr, DecidableEq

/-- Heart-rate statistics dict computed over the non-zero samples. -/
structure HRStats where
  avgHr : Nat
  maxHr : Nat
  minHr : Nat
  durationMinutes : Nat
  totalReadings : Nat
  validReadings : Nat
  deriving Repr, DecidableEq

/-- Statistics as computed in `get_daily_summary` and
`AmazfitDataSync._process_heart_rate_data`: average is integer division
of the sum by the count of non-zero samples, min/max over the non-zero
samples, `none` when every sample is zero. -/
def hrStatsOf (hrValues : List Nat) : Option HRStats :=
  match hrValues.filter (fun hr => 0 < hr) with
  | [] => none
  | v :: vs =>
    some { avgHr := (v :: vs).sum / (v :: vs).length
           maxHr := vs.foldl max v
           minHr := vs.foldl min v
           durationMinutes := (v :: vs).length
           totalReadings := hrValues.length
           validReadings := (v :: vs).length }

/-- Day summary dict built by `get_daily_summary` (the `date` string
field, copied through unchanged, is elided).  Falsy initial values `[]`
and `{}` are the defaults; `summary['sleep']` is falsy exactly when it
still equals the all-absent `SleepData`. -/
structure DaySummary where
  heartRate : List Nat := []
  activity : Option ActivityGroup := none
  sleep : SleepData := {}
  workouts : List Int := []
  events : List Int := []
  hrv : Int := 0
  hrStats : Option HRStats := none
  bandData : Option BandData := none
  deriving Repr, DecidableEq

/-- Remote invocations observable during a single-day request. -/
inductive FetchEvent
  | fetchBand
  | fetchHeartRate
  | fetchActivity
  | fetchSleep
  | tokenRefresh
  deriving Repr, DecidableEq

/-- Results the remote service would hand this day's calls. -/
structure RemoteClient where
  band : Except Unit (Option BandData)
  heartRate : Except Unit (Option String)
  activity : Except Unit (Option ActivityGroup)
  sleep : Except Unit SleepData

/-- Structural parsers: base64+JSON for the summary blob and base64 for
binary blobs; `none` models the exception Python raises. -/
structure Parsers where
  parseSummary : String → Option DecodedSummary
  parseBytes : String → Option (List Nat)

/-- Assembly of `get_daily_summary`: the band_data fetch and its decode
inside one try (an exception leaves all fields at their defaults), then
one fallback call per still-empty field, each in its own try with the
failure swallowed.  The returned trace lists the remote invocations in
order. -/
def getDailySummary (client : RemoteClient) (p : Parsers) :
    DaySummary × List FetchEvent :=
  let s1 : DaySummary :=
    match client.band with
    | .error _ => {}
    | .ok bandResp =>
      let decoded := decode_band_summary p.parseSummary bandResp
      let activity := decoded.stp.map (fun stp =>
        { steps := stp.ttl.getD 0, calories := stp.cal.getD 0,
          distance := stp.dis.getD 0, activeMinutes := stp.act.getD 0 })
      let hrvVal : Int :=
        match decoded.hrv with
        | some g => g.avg.getD 0
        | none => 0
      let sleepData : SleepData :=
        match decoded.slp with
        | some slp => extractSleepData slp
        | none => {}
      let hr : List Nat :=
        match bandResp with
        | some bd =>
          match bd.data with
          | entry :: _ =>
            let blob := entry.data_hr.getD ""
            if blob = "" then [] else decode_hr_blob p.parseBytes blob
          | [] => []
        | none => []
      { heartRate := hr, activity := activity, sleep := sleepData,
        workouts := decoded.wkt.getD [], events := decoded.evt.getD [],
        hrv := hrvVal, hrStats := hrStatsOf hr, bandData := bandResp }
  let hr2 : List Nat :=
    if s1.heartRate = [] then
      match client.heartRate with
      | .error _ => []
      | .ok none => []
      | .ok (some blob) =>
        match p.parseBytes blob with
        | none => []
        | some bytes => decodeHeartRate16 bytes
    else s1.heartRate
  let t2 : List FetchEvent :=
    if s1.heartRate = [] then [FetchEvent.fetchHeartRate] else []
  let act2 : Option ActivityGroup :=
    if s1.activity = none then
      match client.activity with
      | .error _ => none
      | .ok a => a
    else s1.activity
  let t3 : List FetchEvent :=
    if s1.activity = none then [FetchEvent.fetchActivity] else []
  let slp2 : SleepData :=
    if s1.sleep = ({} : SleepData) then
      match client.sleep with
      | .error _ => {}
      | .ok sd => sd
    else s1.sleep
  let t4 : List FetchEvent :=
    if s1.sleep = ({} : SleepData) then [FetchEvent.fetchSleep] else []
  ({ s1 with heartRate := hr2, activity := act2, sleep := slp2 },
    FetchEvent.fetchBand :: (t2 ++ t3 ++ t4))

/-- Client whose every endpoint rejects the request (e.g. an expired app
token: requests raises on the 401 and the service catches it). -/
def authFailClient : RemoteClient :=
  { band := .error (), heartRate := .error (),
    activity := .error (), sleep := .error () }

/-- Parsers that never parse (irrelevant here, nothing reaches them). -/
def nullParsers : Parsers := ⟨fun _ => none, fun _ => none⟩

/-! ### LocalCacheStore rows and the single-day endpoint

Source: `get_amazfit_day_data` (main.py, lines 731-960) over the rows of
`models.AmazfitCredentials`, `models.ActivityData` and
`models.HRSession`.  Nullable columns are Options; Numeric columns are
Rats.  The date-string parsing and IST shift at the head of the endpoint
is elided — `targetDate` is the resulting target day.  A raw payload
written by this application is a dict that always carries its nine keys,
so Python's truthiness test `cached_activity.raw_data` is `isSome`
here. -/

/-- Truncation toward zero, Python's int() on an exact rational. -/
def truncRat (q : Rat) : Int := if 0 ≤ q then ⌊q⌋ else -⌊-q⌋

/-- Row of `amazfit_credentials`. -/
structure Credentials where
  appToken : String
  userIdAmazfit : Option String := none
  email : Option String := none
  password : Option String := none
  lastSync : Option Int := none
  deriving Repr, DecidableEq

/-- Row of `activity_data` for one (user, date). -/
structure ActivityRow where
  date : Int
  steps : Option Nat := none
  caloriesBurned : Option Nat := none
  distanceKm : Option Rat := none
  activeMinutes : Option Nat := none
  sleepHours : Option Rat := none
  deepSleepHours : Option Rat := none
  lightSleepHours : Option Rat := none
  remSleepHours : Option Rat := none
  awakeHours : Option Rat := none
  rawData : Option DaySummary := none
  deriving Repr, DecidableEq

/-- The `session_data` JSON column of an HR session. -/
structure SessionData where
  hrValues : List Nat := []
  stats : Option HRStats := none
  deriving Repr, DecidableEq

/-- Row of `hr_sessions`; `date` is the day of `logged_at`. -/
structure HRSessionRow where
  date : Int
  avgHr : Option Nat := none
  maxHr : Option Nat := none
  minHr : Option Nat := none
  durationMinutes : Option Nat := none
  sessionData : Option SessionData := none
  deriving Repr, DecidableEq

/-- Slice of the store the endpoint touches: the current user's rows for
the target date, plus the credentials row. -/
structure DayDbState where
  activityRow : Option ActivityRow := none
  hrRow : Option HRSessionRow := none
  credentials : Option Credentials := none
  deriving Repr, DecidableEq

/-- Activity sub-dict of the response (cached branch exposes the raw
nullable columns; fetch branch wraps the decoded group). -/
structure ActivityView where
  steps : Option Nat := none
  calories : Option Nat := none
  distance : Rat := 0
  activeMinutes : Option Nat := none
  deriving Repr, DecidableEq

/-- Sleep sub-dict of the cached branch. -/
structure SleepView where
  sleepTimeHours : Rat := 0
  deepSleepHours : Rat := 0
  lightSleepHours : Rat := 0
  remSleepHours : Rat := 0
  awakeHours : Rat := 0
  sleepTimeSeconds : Int := 0
  deriving Repr, DecidableEq

/-- Shape of the response's sleep field: the two branches return
differently-shaped dicts. -/
inductive SleepPayload
  | view (v : SleepView)
  | data (d : SleepData)
  deriving Repr, DecidableEq

/-- Day response of the endpoint (its constant `date` echo elided). -/
structure DayResponse where
  heartRate : List Nat
  steps : Nat
  calories : Nat
  sleepDuration : Int
  activity : Option ActivityView
  sleep : SleepPayload
  summary : DecodedSummary
  workouts : List Int
  events : List Int
  hrv : Int
  hrStats : Option HRStats
  cached : Bool
  deriving Repr, DecidableEq

/-- HTTPException statuses the endpoint raises. -/
inductive HttpError
  | notFound
  | badRequest
  | internalError
  deriving Repr, DecidableEq

/-- Cache-miss path of the endpoint (main.py, lines 809-954): check the
credentials row, fetch the daily summary (which swallows its own remote
failures), write the rows back (the model's store always succeeds; a
failure would be swallowed anyway), return the fetched view with
cached = false. -/
def fetchDayAndCache (client : RemoteClient) (p : Parsers) (targetDate : Int)
    (st : DayDbState) :
    Except HttpError DayResponse × List FetchEvent × DayDbState :=
  match st.credentials with
  | none => (.error .notFound, [], st)
  | some creds =>
    if creds.appToken = "" ∨ creds.userIdAmazfit.getD "" = "" then
      (.error .badRequest, [], st)
    else
      let (daily, trace) := getDailySummary client p
      let summary := decode_band_summary p.parseSummary daily.bandData
      let newRow : ActivityRow :=
        { date := targetDate
          steps := some ((daily.activity.map (·.steps)).getD 0)
          caloriesBurned := some ((daily.activity.map (·.calories)).getD 0)
          distanceKm :=
            some (((daily.activity.map (·.distance)).getD 0 : Nat) / (1000 : Rat))
          activeMinutes := some ((daily.activity.map (·.activeMinutes)).getD 0)
          sleepHours := some (daily.sleep.sleepTimeHours.getD 0)
          deepSleepHours := some (daily.sleep.deepSleepHours.getD 0)
          lightSleepHours := some (daily.sleep.lightSleepHours.getD 0)
          remSleepHours := some (daily.sleep.remSleepHours.getD 0)
          awakeHours := some (daily.sleep.awakeHours.getD 0)
          rawData := some daily }
      let hrRow2 : Option HRSessionRow :=
        if daily.heartRate = [] then st.hrRow
        else
          match hrStatsOf daily.heartRate with
          | none => st.hrRow
          | some stats =>
            match st.hrRow with
            | some old =>
              some
                { old with
                  avgHr := some stats.avgHr
                  maxHr := some stats.maxHr
                  minHr := some stats.minHr
                  durationMinutes := some stats.durationMinutes
                  sessionData := some ⟨daily.heartRate, some stats⟩ }
            | none =>
              some
                { date := targetDate
                  avgHr := some stats.avgHr
                  maxHr := some stats.maxHr
                  minHr := some stats.minHr
                  durationMinutes := some stats.durationMinutes
                  sessionData := some ⟨daily.heartRate, some stats⟩ }
      let res : DayResponse :=
        { heartRate := daily.heartRate
          steps := (daily.activity.map (·.steps)).getD 0
          calories := (daily.activity.map (·.calories)).getD 0
          sleepDuration := daily.sleep.sleepTimeSeconds.getD 0
          activity := daily.activity.map (fun ag =>
            { steps := some ag.steps, calories := some ag.calories,
              distance := (ag.distance : Rat),
              activeMinutes := some ag.activeMinutes })
          sleep := .data daily.sleep
          summary := summary
          workouts := daily.workouts
          events := daily.events
          hrv := daily.hrv
          hrStats := daily.hrStats
          cached := false }
      (.ok res, trace, { st with activityRow := some newRow, hrRow := hrRow2 })

/-- The endpoint `get_amazfit_day_data`: a cached activity row with a
raw payload is served directly from the store with cached = true and no
remote invocation; otherwise the cache-miss path runs. -/
def getAmazfitDayData (client : RemoteClient) (p : Parsers) (targetDate : Int)
    (st : DayDbState) :
    Except HttpError DayResponse × List FetchEvent × DayDbState :=
  match st.activityRow with
  | some row =>
    match row.rawData with
    | some raw =>
      let hrData : List Nat :=
        match st.hrRow with
        | some hr =>
          match hr.sessionData with
          | some sd => sd.hrValues
          | none => []
        | none => []
      (.ok
        { heartRate := hrData
          steps := row.steps.getD 0
          calories := row.caloriesBurned.getD 0
          sleepDuration := truncRat ((row.sleepHours.getD 0) * 3600)
          activity := some
            { steps := row.steps, calories := row.caloriesBurned,
              distance := row.distanceKm.getD 0,
              activeMinutes := row.activeMinutes }
          sleep := .view
            { sleepTimeHours := row.sleepHours.getD 0
              deepSleepHours := row.deepSleepHours.getD 0
              lightSleepHours := row.lightSleepHours.getD 0
              remSleepHours := row.remSleepHours.getD 0
              awakeHours := row.awakeHours.getD 0
              sleepTimeSeconds := truncRat ((row.sleepHours.getD 0) * 3600) }
          summary := emptySummary
          workouts := raw.workouts
          events := raw.events
          hrv := raw.hrv
          hrStats := raw.hrStats
          cached := true }, [], st)
    | none => fetchDayAndCache client p targetDate st
  | none => fetchDayAndCache client p targetDate st

/-! ### Backfill sync

Source: `AmazfitDataSync` (amazfit_service.py, lines 388-741).  The
remote service is a per-day `RemoteClient`; the store slice is the one
user's rows of the three tables plus the credentials row.  SQLAlchemy's
`.first()`-then-mutate upsert is modelled as replace-first-match /
append. -/

/-- Replacement of the first row satisfying the predicate. -/
def replaceFirst {α : Type} (q : α → Bool) (new : α) : List α → List α
  | [] => []
  | r :: rest => if q r then new :: rest else r :: replaceFirst q new rest

/-- Fields `_process_activity_data` extracts from a summary activity
group.  The group always carries its steps key, so the first branch
runs, setting only steps and calories_burned; the raw-dict branches
keyed 'summary' and 'hourlySteps' are unreachable for the shapes this
application produces and are elided. -/
structure ProcessedActivity where
  steps : Option Nat := none
  caloriesBurned : Option Nat := none
  distanceKm : Option Rat := none
  activeMinutes : Option Nat := none
  deriving Repr, DecidableEq

/-- Projection `_process_activity_data`: a falsy input yields the empty
dict. -/
def process_activity_data : Option ActivityGroup → ProcessedActivity
  | none => {}
  | some ag => { steps := some ag.steps, caloriesBurned := some ag.calories }

/-- Fields `_process_sleep_data` extracts; the deep/light/rem/awake hour
keys are set only by its unreachable raw-dict branch and stay absent for
the shapes this application produces. -/
structure ProcessedSleep where
  sleepHours : Option Rat := none
  sleepTimeSeconds : Option Int := none
  sleepStart : Option Int := none
  sleepEnd : Option Int := none
  deepSleepHours : Option Rat := none
  lightSleepHours : Option Rat := none
  remSleepHours : Option Rat := none
  awakeHours : Option Rat := none
  deriving Repr, DecidableEq

/-- Projection `_process_sleep_data`: a falsy dict yields the empty
dict; a dict carrying sleep_time_hours sets the four fields of the
first branch. -/
def process_sleep_data (sd : SleepData) : ProcessedSleep :=
  if sd.sleepTimeHours.isSome then
    { sleepHours := some (sd.sleepTimeHours.getD 0)
      sleepTimeSeconds := some (sd.sleepTimeSeconds.getD 0)
      sleepStart := sd.sleepStart
      sleepEnd := sd.sleepEnd }
  else {}

/-- Row of `steps_data` for one (user, date). -/
structure StepsRow where
  date : Int
  totalSteps : Nat := 0
  hourlySteps : List Nat := []
  goalSteps : Nat := 10000
  caloriesBurned : Nat := 0
  distanceKm : Rat := 0
  activeMinutes : Nat := 0
  rawActivity : Option ActivityGroup := none
  deriving Repr, DecidableEq

/-- Store slice one user's backfill touches. -/
structure SyncDb where
  activityRows : List ActivityRow := []
  stepsRows : List StepsRow := []
  hrRows : List HRSessionRow := []
  credentials : Option Credentials := none
  deriving Repr, DecidableEq

/-- Dates of the stored activity rows, the upsert key. -/
def activityDates (db : SyncDb) : List Int := db.activityRows.map (·.date)

/-- Upsert of `_sync_hr_session` for a day with non-empty statistics:
mutate the first session row of that day in place (its logged_at stays),
else insert a new row logged at the day's midnight. -/
def sync_hr_session (rows : List HRSessionRow) (d : Int) (stats : HRStats)
    (hrValues : List Nat) : List HRSessionRow :=
  match rows.find? (fun r => r.date == d) with
  | some old =>
    replaceFirst (fun r => r.date == d)
      { old with
        avgHr := some stats.avgHr
        maxHr := some stats.maxHr
        minHr := some stats.minHr
        durationMinutes := some stats.durationMinutes
        sessionData := some ⟨hrValues, some stats⟩ } rows
  | none =>
    rows ++ [{ date := d
               avgHr := some stats.avgHr
               maxHr := some stats.maxHr
               minHr := some stats.minHr
               durationMinutes := some stats.durationMinutes
               sessionData := some ⟨hrValues, some stats⟩ }]

/-- One day of the `sync_activity_data` loop body: fetch the daily
summary (whose remote failures are swallowed inside it), project the
groups, upsert the activity row keyed by (user, date), and upsert the
heart-rate session when any valid sample exists. -/
def syncActivityDay (client : RemoteClient) (p : Parsers) (db : SyncDb)
    (d : Int) : SyncDb :=
  let daily := (getDailySummary client p).1
  let activity := process_activity_data daily.activity
  let sleep := process_sleep_data daily.sleep
  let stats := hrStatsOf daily.heartRate
  let newRow : ActivityRow :=
    { date := d
      caloriesBurned := some (activity.caloriesBurned.getD 0)
      activeMinutes := some (activity.activeMinutes.getD 0)
      distanceKm := some (activity.distanceKm.getD 0)
      steps := some (activity.steps.getD 0)
      sleepHours := some (sleep.sleepHours.getD 0)
      deepSleepHours := some (sleep.deepSleepHours.getD 0)
      lightSleepHours := some (sleep.lightSleepHours.getD 0)
      remSleepHours := some (sleep.remSleepHours.getD 0)
      awakeHours := some (sleep.awakeHours.getD 0)
      rawData := some daily }
  let rows2 :=
    if db.activityRows.any (fun r => r.date == d) then
      replaceFirst (fun r => r.date == d) newRow db.activityRows
    else db.activityRows ++ [newRow]
  let hrRows2 :=
    match stats with
    | none => db.hrRows
    | some st => sync_hr_session db.hrRows d st daily.heartRate
  { db with activityRows := rows2, hrRows := hrRows2 }

/-- Day range `today - daysBack` to `today`, ascending and inclusive on
both ends (the source's `while current_date <= end_date`). -/
def dayRange (today : Int) (daysBack : Nat) : List Int :=
  (List.range (daysBack + 1)).map (fun i : Nat => today - daysBack + (i : Int))

/-- Activity loop over the remaining days, returning the store and the
synced count.  Every day counts: `get_daily_summary` never raises, and
the model's store operations cannot fail, so the per-day except is
unreachable on this path. -/
def syncActivityLoop (clients : Int → RemoteClient) (p : Parsers) :
    List Int → SyncDb → SyncDb × Nat
  | [], db => (db, 0)
  | d :: ds, db =>
    let r := syncActivityLoop clients p ds (syncActivityDay (clients d) p db d)
    (r.1, r.2 + 1)

/-- `sync_activity_data`: `_init_service` raises when no credentials row
exists (before the try); otherwise the per-day loop runs over the whole
range. -/
def sync_activity_data (clients : Int → RemoteClient) (p : Parsers)
    (today : Int) (daysBack : Nat) (db : SyncDb) : Except Unit (SyncDb × Nat) :=
  match db.credentials with
  | none => .error ()
  | some _ => .ok (syncActivityLoop clients p (dayRange today daysBack) db)

/-- One day of the `sync_steps_data` loop body: the direct activity
endpoint raises on HTTP failure, which the per-day except catches — the
day is then skipped and not counted. -/
def syncStepsDay (client : RemoteClient) (db : SyncDb) (d : Int) :
    SyncDb × Bool :=
  match client.activity with
  | .error _ => (db, false)
  | .ok aResp =>
    let processed := process_activity_data aResp
    let rows2 :=
      match db.stepsRows.find? (fun r => r.date == d) with
      | some old =>
        replaceFirst (fun r => r.date == d)
          { old with
            totalSteps := processed.steps.getD 0
            hourlySteps := []
            caloriesBurned := processed.caloriesBurned.getD 0
            distanceKm := processed.distanceKm.getD 0
            activeMinutes := processed.activeMinutes.getD 0
            rawActivity := aResp } db.stepsRows
      | none =>
        db.stepsRows ++
          [{ date := d
             totalSteps := processed.steps.getD 0
             hourlySteps := []
             goalSteps := 10000
             caloriesBurned := processed.caloriesBurned.getD 0
             distanceKm := processed.distanceKm.getD 0
             activeMinutes := processed.activeMinutes.getD 0
             rawActivity := aResp }]
    ({ db with stepsRows := rows2 }, true)

/-- Steps loop over the remaining days. -/
def syncStepsLoop (clients : Int → RemoteClient) :
    List Int → SyncDb → SyncDb × Nat
  | [], db => (db, 0)
  | d :: ds, db =>
    let r1 := syncStepsDay (clients d) db d
    let r := syncStepsLoop clients ds r1.1
    (r.1, r.2 + (if r1.2 then 1 else 0))

/-- `sync_steps_data`. -/
def sync_steps_data (clients : Int → RemoteClient) (today : Int)
    (daysBack : Nat) (db : SyncDb) : Except Unit (SyncDb × Nat) :=
  match db.credentials with
  | none => .error ()
  | some _ => .ok (syncStepsLoop clients (dayRange today daysBack) db)

/-- One day of the `sync_heart_rate_data` loop body: an HTTP failure or
base64 failure raises and is caught per day; otherwise the day counts
only when the decoded series has a valid (non-zero) sample. -/
def syncHeartRateDay (client : RemoteClient) (p : Parsers) (db : SyncDb)
    (d : Int) : SyncDb × Bool :=
  match client.heartRate with
  | .error _ => (db, false)
  | .ok none => (db, false)
  | .ok (some blob) =>
    match p.parseBytes blob with
    | none => (db, false)
    | some bytes =>
      match hrStatsOf (decodeHeartRate16 bytes) with
      | none => (db, false)
      | some stats =>
        ({ db with
           hrRows := sync_hr_session db.hrRows d stats (decodeHeartRate16 bytes) },
          true)

/-- Heart-rate loop over the remaining days. -/
def syncHeartRateLoop (clients : Int → RemoteClient) (p : Parsers) :
    List Int → SyncDb → SyncDb × Nat
  | [], db => (db, 0)
  | d :: ds, db =>
    let r1 := syncHeartRateDay (clients d) p db d
    let r := syncHeartRateLoop clients p ds r1.1
    (r.1, r.2 + (if r1.2 then 1 else 0))

/-- `sync_heart_rate_data`. -/
def sync_heart_rate_data (clients : Int → RemoteClient) (p : Parsers)
    (today : Int) (daysBack : Nat) (db : SyncDb) : Except Unit (SyncDb × Nat) :=
  match db.credentials with
  | none => .error ()
  | some _ => .ok (syncHeartRateLoop clients p (dayRange today daysBack) db)

/-- Observable events of a `sync_all_data` run. -/
inductive SyncEvent
  | lastSyncUpdate
  | daySynced (d : Int)
  deriving Repr, DecidableEq

/-- Day event recognizer. -/
def isDaySynced : SyncEvent → Bool
  | .daySynced _ => true
  | _ => false

/-- Counts returned by `sync_all_data`. -/
structure SyncResults where
  activitySynced : Nat := 0
  stepsSynced : Nat := 0
  heartRateSynced : Nat := 0
  sleepSynced : Nat := 0
  deriving Repr, DecidableEq

/-- `sync_all_data`: the credentials row's last_sync is set first (when
the row exists), then the activity loop runs (raising when there are no
credentials), the sleep count is assigned the activity count, and the
steps and heart-rate loops follow.  The trace records the credentials
update and every day iteration of each loop in execution order. -/
def sync_all_data (clients : Int → RemoteClient) (p : Parsers) (today : Int)
    (daysBack : Nat) (db : SyncDb) (now : Int) :
    Except Unit (SyncDb × SyncResults × List SyncEvent) :=
  let db1 :=
    match db.credentials with
    | some c => { db with credentials := some { c with lastSync := some now } }
    | none => db
  let t1 : List SyncEvent :=
    match db.credentials with
    | some _ => [SyncEvent.lastSyncUpdate]
    | none => []
  match sync_activity_data clients p today daysBack db1 with
  | .error e => .error e
  | .ok r1 =>
    match sync_steps_data clients today daysBack r1.1 with
    | .error e => .error e
    | .ok r2 =>
      match sync_heart_rate_data clients p today daysBack r2.1 with
      | .error e => .error e
      | .ok r3 =>
        .ok (r3.1,
          { activitySynced := r1.2, stepsSynced := r2.2,
            heartRateSynced := r3.2, sleepSynced := r1.2 },
          t1 ++ (dayRange today daysBack).map SyncEvent.daySynced
             ++ (dayRange today daysBack).map SyncEvent.daySynced
             ++ (dayRange today daysBack).map SyncEvent.daySynced)

/-- Claim C9's ordering property of a trace: the last-sync update
happens exactly once and only after every per-day event. -/
def lastSyncAfterLoop (t : List SyncEvent) : Prop :=
  t.count SyncEvent.lastSyncUpdate = 1 ∧
  ∀ i j : Fin t.length, t.get i = SyncEvent.lastSyncUpdate →
    isDaySynced (t.get j) = true → (j : Nat) < (i : Nat)

/-- Client whose every endpoint answers successfully but with no data
(an empty band_data.json response and empty fallback responses). -/
def okEmptyClient : RemoteClient :=
  { band := .ok none, heartRate := .ok none,
    activity := .ok none, sleep := .ok {} }

/-- Per-day clients failing the remote fetch on day 3 only. -/
def oneFailClients : Int → RemoteClient := fun d =>
  if d = 3 then authFailClient else okEmptyClient

/-- Store holding only a connected credentials row. -/
def credsOnlyDb : SyncDb := { credentials := some { appToken := "t" } }

/-- Two consecutive activity backfills over the same range with
daysBack = 3, from an empty store. -/
def runSyncTwice : Except Unit (SyncDb × Nat) :=
  match sync_activity_data (fun _ => okEmptyClient) nullParsers 0 3 credsOnlyDb with
  | .error e => .error e
  | .ok (db1, _) => sync_activity_data (fun _ => okEmptyClient) nullParsers 0 3 db1

lemma hrValue16_eq_spec (v : Nat) (h : v ≤ 65535) :
    hrValue16 v = specHrValue16 v := by
  unfold hrValue16 specHrValue16
  split_ifs <;> omega

lemma hrValue16_le (v : Nat) (h : v ≤ 65535) : hrValue16 v ≤ 6553 := by
  unfold hrValue16
  split_ifs <;> omega

/-- C1: for a byte string (every byte below 256), the paired 16-bit
little-endian decoding maps each successive 2-byte little-endian group
by the rule 65535 ↦ 0, v > 300 ↦ v / 10, otherwise v ↦ v, and a
dangling final odd byte decodes to 0. -/
theorem decodeHeartRate16_groups (bs : List Nat) (h : ∀ b ∈ bs, b < 256) :
    decodeHeartRate16 bs =
      (leGroups bs).map specHrValue16 ++
        (if bs.length % 2 = 1 then [0] else []) := by
  induction bs using decodeHeartRate16.induct with
  | case1 => simp [decodeHeartRate16, leGroups]
  | case2 b => simp [decodeHeartRate16, leGroups]
  | case3 b0 b1 rest ih =>
    have hb0 : b0 < 256 := h b0 (by simp)
    have hb1 : b1 < 256 := h b1 (by simp)
    have hrest : ∀ b ∈ rest, b < 256 := fun b hb => h b (by simp [hb])
    have hle : b0 + 256 * b1 ≤ 65535 := by omega
    simp only [decodeHeartRate16, leGroups, List.map_cons, List.cons_append,
      List.length_cons]
    rw [hrValue16_eq_spec _ hle, ih hrest]
    have h2 : (rest.length + 1 + 1) % 2 = rest.length % 2 := by omega
    simp only [h2]

/-- Witness for C1 at a concrete blob: bytes FF FF 10 00 FF 01 05 decode
to [0, 16, 51, 0] (sentinel, pass-through, 511/10, dangling byte). -/
theorem decodeHeartRate16_groups_witness :
    decodeHeartRate16 [255, 255, 16, 0, 255, 1, 5] =
      (leGroups [255, 255, 16, 0, 255, 1, 5]).map specHrValue16 ++ [0] := by
  have h := decodeHeartRate16_groups [255, 255, 16, 0, 255, 1, 5] (by decide)
  simpa using h

/-- C2, counterexample: the paired 16-bit decoding of the two-byte blob
FA 00 yields the sample 250, which is outside [0, 239], refuting the
claim that both encodings only produce values in [0, 239]. -/
theorem hr_range_counterexample :
    decodeHeartRate16 [250, 0] = [250] ∧ ¬ (250 : Nat) ≤ 239 := by
  constructor
  · decide
  · decide

/-- C2, amended: the packed 8-bit decoding always produces samples in
[0, 239] (0 reserved for no data), while the paired 16-bit decoding of a
byte string only guarantees samples in [0, 6553]: values in (239, 300]
pass through unchanged and values above 300 map to v / 10 ≤ 6553. -/
theorem hr_range_invariant :
    (∀ b64 blob v, v ∈ decode_hr_blob b64 blob → v ≤ 239) ∧
    (∀ bs : List Nat, (∀ b ∈ bs, b < 256) →
      ∀ v ∈ decodeHeartRate16 bs, v ≤ 6553) := by
  constructor
  · intro b64 blob v hv
    unfold decode_hr_blob at hv
    cases hb : b64 blob with
    | none => simp [hb] at hv
    | some raw =>
      simp only [hb, List.mem_map] at hv
      obtain ⟨a, _, ha⟩ := hv
      subst ha
      split_ifs with h
      · omega
      · omega
  · intro bs hbs v hv
    induction bs using decodeHeartRate16.induct with
    | case1 => simp [decodeHeartRate16] at hv
    | case2 b =>
      simp [decodeHeartRate16] at hv
      omega
    | case3 b0 b1 rest ih =>
      have hb0 : b0 < 256 := hbs b0 (by simp)
      have hb1 : b1 < 256 := hbs b1 (by simp)
      simp only [decodeHeartRate16, List.mem_cons] at hv
      rcases hv with hv | hv
      · subst hv
        exact hrValue16_le _ (by omega)
      · exact ih (fun b hb => hbs b (by simp [hb])) hv

/-- Witness for C2's amended invariant at concrete inputs: the 8-bit
decoding of byte FA yields 0 ≤ 239, and the 16-bit decoding of blob
FA 00 yields 250 ≤ 6553. -/
theorem hr_range_invariant_witness :
    (0 : Nat) ≤ 239 ∧ (250 : Nat) ≤ 6553 := by
  refine ⟨hr_range_invariant.1 (fun _ => some [250]) "" 0 ?_,
    hr_range_invariant.2 [250, 0] (by decide) 250 ?_⟩
  · simp [decode_hr_blob]
  · decide

lemma slpFallback_eq_find (slp : SlpGroup) :
    slpFallback slp =
      (slp.find? (fun p => decide (0 < p.2 ∧ p.1 ≠ "st" ∧ p.1 ≠ "ed"))).map
        Prod.snd := by
  induction slp with
  | nil => rfl
  | cons p rest ih =>
    obtain ⟨k, v⟩ := p
    by_cases h : 0 < v ∧ k ≠ "st" ∧ k ≠ "ed"
    · simp [slpFallback, List.find?, h]
    · simp [slpFallback, List.find?, h, ih]

/-- C8: with both start and end present the derived sleep duration is
end - start; with "ed" absent it is the first positive value of the
group at a key other than "st"/"ed"; and the group holding only
st = 1000 yields an absent duration, never a negative or exceptional
result. -/
theorem sleep_duration_correct (slp : SlpGroup) :
    (∀ st ed : Int, slp.lookup "st" = some st → slp.lookup "ed" = some ed →
      (extractSleepData slp).sleepTimeSeconds = some (ed - st)) ∧
    (slp.lookup "ed" = none →
      (extractSleepData slp).sleepTimeSeconds =
        (slp.find? (fun p => decide (0 < p.2 ∧ p.1 ≠ "st" ∧ p.1 ≠ "ed"))).map
          Prod.snd) ∧
    (extractSleepData [("st", 1000)]).sleepTimeSeconds = none := by
  refine ⟨?_, ?_, by decide⟩
  · intro st ed h1 h2
    simp [extractSleepData, h1, h2]
  · intro hed
    rw [← slpFallback_eq_find]
    cases hst : slp.lookup "st" <;>
      · simp only [extractSleepData, hst, hed]
        cases hf : slpFallback slp <;> simp [hf]

/-- Witness for C8: st = 1000, ed = 6400 yields 5400 seconds, and the
group with only st = 1000 yields no duration. -/
theorem sleep_duration_correct_witness :
    (extractSleepData [("st", 1000), ("ed", 6400)]).sleepTimeSeconds = some 5400 ∧
    (extractSleepData [("st", 1000)]).sleepTimeSeconds = none := by
  constructor
  · have h := (sleep_duration_correct [("st", 1000), ("ed", 6400)]).1 1000 6400
      (by rfl) (by rfl)
    have h2 : (6400 - 1000 : Int) = 5400 := by norm_num
    rw [h2] at h
    exact h
  · exact (sleep_duration_correct []).2.2

/-- C6, counterexample: on a blob whose structure cannot be parsed the
source decoder returns the empty summary without failing, where the
claim demands a `DecodeError`. -/
theorem decode_error_counterexample :
    decode_band_summary (fun _ => none)
        (some { data := [{ summary := some "xx" }] }) = emptySummary ∧
    decodeSummaryClaim (fun _ => none)
        (some { data := [{ summary := some "xx" }] }) =
      Except.error DecodeError.decodeError := ⟨rfl, rfl⟩

/-- C6, amended: decoding never fails at all — a structurally
unparseable summary blob yields the empty summary (the whole day
appears unavailable as the all-empty projection, never partially
populated), and every result is either the empty summary or a
successful structural parse of the blob. -/
theorem decode_band_summary_never_fails
    (parse : String → Option DecodedSummary) (band_data : Option BandData) :
    (∀ s, summaryField band_data = some s → parse s = none →
      decode_band_summary parse band_data = emptySummary) ∧
    (decode_band_summary parse band_data = emptySummary ∨
      ∃ s d, summaryField band_data = some s ∧ parse s = some d ∧
        decode_band_summary parse band_data = d) := by
  constructor
  · intro s hs hp
    cases band_data with
    | none => rfl
    | some bd =>
      cases hd : bd.data with
      | nil => simp [decode_band_summary, hd]
      | cons entry rest =>
        simp only [summaryField, hd] at hs
        by_cases he : entry.summary.getD "" = ""
        · simp [decode_band_summary, hd, he]
        · simp only [he, if_false] at hs
          simp only [decode_band_summary, hd, he, if_false]
          have hse := Option.some.inj hs
          rw [hse, hp]
          rfl
  · cases band_data with
    | none => exact Or.inl rfl
    | some bd =>
      cases hd : bd.data with
      | nil => exact Or.inl (by simp [decode_band_summary, hd])
      | cons entry rest =>
        by_cases he : entry.summary.getD "" = ""
        · exact Or.inl (by simp [decode_band_summary, hd, he])
        · cases hp : parse (entry.summary.getD "") with
          | none => exact Or.inl (by simp [decode_band_summary, hd, he, hp])
          | some d =>
            refine Or.inr ⟨entry.summary.getD "", d, ?_, hp, ?_⟩
            · simp [summaryField, hd, he]
            · simp [decode_band_summary, hd, he, hp]

/-- Witness for C6's amended statement: a failing parser on a present
blob yields the empty summary. -/
theorem decode_band_summary_never_fails_witness :
    decode_band_summary (fun _ => none)
        (some { data := [{ summary := some "yy" }] }) = emptySummary :=
  (decode_band_summary_never_fails (fun _ => none)
      (some { data := [{ summary := some "yy" }] })).1 "yy" rfl rfl

/-- C7, counterexample: with every remote call auth-rejected, the
single-day fetch performs one band_data attempt plus one fallback
attempt per field and no token refresh at all — not the claimed one
refresh plus one retry. -/
theorem refresh_retry_counterexample :
    (getDailySummary authFailClient nullParsers).2 =
      [FetchEvent.fetchBand, FetchEvent.fetchHeartRate,
       FetchEvent.fetchActivity, FetchEvent.fetchSleep] ∧
    ¬ ((getDailySummary authFailClient nullParsers).2.count
          FetchEvent.tokenRefresh = 1 ∧
       (getDailySummary authFailClient nullParsers).2.count
          FetchEvent.fetchBand = 2) := by
  constructor
  · rfl
  · decide

/-- C7, amended: a single-day fetch never refreshes the token and never
retries an endpoint: the band_data endpoint is invoked exactly once and
each fallback endpoint at most once, failures being swallowed into an
empty summary rather than surfacing as a SyncError. -/
theorem no_refresh_no_retry (client : RemoteClient) (p : Parsers) :
    ((getDailySummary client p).2.count FetchEvent.tokenRefresh = 0) ∧
    ((getDailySummary client p).2.count FetchEvent.fetchBand = 1) ∧
    ((getDailySummary client p).2.count FetchEvent.fetchHeartRate ≤ 1) ∧
    ((getDailySummary client p).2.count FetchEvent.fetchActivity ≤ 1) ∧
    ((getDailySummary client p).2.count FetchEvent.fetchSleep ≤ 1) := by
  simp only [getDailySummary]
  split_ifs <;> decide

/-- C3: with a cached activity row carrying a raw payload, the endpoint
serves the view entirely from the cached rows (heart rate from the
cached session's series, defaulting to empty), reports cached = true,
leaves the store untouched, and performs no remote invocation. -/
theorem cached_day_serves_from_cache (client : RemoteClient) (p : Parsers)
    (targetDate : Int) (st : DayDbState) (row : ActivityRow) (raw : DaySummary)
    (h1 : st.activityRow = some row) (h2 : row.rawData = some raw) :
    getAmazfitDayData client p targetDate st =
      (.ok
        { heartRate := ((st.hrRow.bind (·.sessionData)).map (·.hrValues)).getD []
          steps := row.steps.getD 0
          calories := row.caloriesBurned.getD 0
          sleepDuration := truncRat ((row.sleepHours.getD 0) * 3600)
          activity := some
            { steps := row.steps, calories := row.caloriesBurned,
              distance := row.distanceKm.getD 0,
              activeMinutes := row.activeMinutes }
          sleep := .view
            { sleepTimeHours := row.sleepHours.getD 0
              deepSleepHours := row.deepSleepHours.getD 0
              lightSleepHours := row.lightSleepHours.getD 0
              remSleepHours := row.remSleepHours.getD 0
              awakeHours := row.awakeHours.getD 0
              sleepTimeSeconds := truncRat ((row.sleepHours.getD 0) * 3600) }
          summary := emptySummary
          workouts := raw.workouts
          events := raw.events
          hrv := raw.hrv
          hrStats := raw.hrStats
          cached := true }, [], st) := by
  cases st with
  | mk activityRow hrRow credentials =>
    simp only [DayDbState.activityRow] at h1
    subst h1
    simp only [getAmazfitDayData, h2]
    cases hrRow with
    | none => rfl
    | some hr =>
      cases hsd : hr.sessionData with
      | none => simp [hsd]
      | some sd => simp [hsd]

/-- Witness for C3 at a concrete store: one cached row with a payload
and a session of three samples is served as-is with no remote call. -/
theorem cached_day_serves_from_cache_witness :
    getAmazfitDayData authFailClient nullParsers 5
      { activityRow := some
          { date := 5, steps := some 8342, caloriesBurned := some 210,
            rawData := some { hrv := 42 } },
        hrRow := some
          { date := 5, sessionData := some { hrValues := [70, 0, 80] } },
        credentials := none } =
      (.ok
        { heartRate := [70, 0, 80]
          steps := 8342
          calories := 210
          sleepDuration := 0
          activity := some
            { steps := some 8342, calories := some 210,
              distance := 0, activeMinutes := none }
          sleep := .view {}
          summary := emptySummary
          workouts := []
          events := []
          hrv := 42
          hrStats := none
          cached := true }, [],
        { activityRow := some
            { date := 5, steps := some 8342, caloriesBurned := some 210,
              rawData := some { hrv := 42 } },
          hrRow := some
            { date := 5, sessionData := some { hrValues := [70, 0, 80] } },
          credentials := none }) := by
  rw [cached_day_serves_from_cache authFailClient nullParsers 5 _
    { date := 5, steps := some 8342, caloriesBurned := some 210,
      rawData := some { hrv := 42 } } { hrv := 42 } rfl rfl]
  norm_num [truncRat]

lemma dayRange_length (today : Int) (daysBack : Nat) :
    (dayRange today daysBack).length = daysBack + 1 := by
  rw [dayRange, List.length_map, List.length_range]

lemma dayRange_nodup (today : Int) (daysBack : Nat) :
    (dayRange today daysBack).Nodup := by
  unfold dayRange
  refine List.Nodup.map ?_ (List.nodup_range _)
  intro a b hab
  simp only at hab
  omega

lemma replaceFirst_map_key {α : Type} (key : α → Int) (d : Int) (new : α)
    (hnew : key new = d) :
    ∀ rows : List α,
      (replaceFirst (fun r => key r == d) new rows).map key = rows.map key := by
  intro rows
  induction rows with
  | nil => rfl
  | cons r rest ih =>
    by_cases h : key r == d
    · have hr : key r = d := by simpa using h
      simp [replaceFirst, h, hnew, hr]
    · simp [replaceFirst, h, ih]

lemma syncActivityDay_dates (client : RemoteClient) (p : Parsers)
    (db : SyncDb) (d : Int) :
    activityDates (syncActivityDay client p db d) =
      if d ∈ activityDates db then activityDates db
      else activityDates db ++ [d] := by
  by_cases hmem : d ∈ activityDates db
  · have hany : db.activityRows.any (fun r => r.date == d) = true := by
      rw [List.any_eq_true]
      rcases List.mem_map.mp hmem with ⟨r, hr, hrd⟩
      exact ⟨r, hr, by simp [hrd]⟩
    rw [if_pos hmem]
    simp only [syncActivityDay, activityDates, hany]
    rw [if_pos trivial]
    refine replaceFirst_map_key (fun r => r.date) d _ ?_ db.activityRows
    rfl
  · have hany : db.activityRows.any (fun r => r.date == d) = false := by
      simp only [List.any_eq_false, beq_eq_false_iff_ne, ne_eq]
      intro r hr hrd
      exact hmem (List.mem_map.mpr ⟨r, hr, by simpa using hrd⟩)
    rw [if_neg hmem]
    simp only [syncActivityDay, activityDates, hany, Bool.false_eq_true, if_false]
    simp [List.map_append]

lemma syncActivityDay_dates_grows (client : RemoteClient) (p : Parsers)
    (db : SyncDb) (d : Int) :
    activityDates db <+: activityDates (syncActivityDay client p db d) := by
  rw [syncActivityDay_dates]
  split_ifs
  · exact List.prefix_refl _
  · exact List.prefix_append _ _

lemma syncActivityDay_dates_mem (client : RemoteClient) (p : Parsers)
    (db : SyncDb) (d : Int) :
    d ∈ activityDates (syncActivityDay client p db d) := by
  rw [syncActivityDay_dates]
  split_ifs with h
  · exact h
  · simp

lemma syncActivityDay_credentials (client : RemoteClient) (p : Parsers)
    (db : SyncDb) (d : Int) :
    (syncActivityDay client p db d).credentials = db.credentials := rfl

lemma syncActivityLoop_count (clients : Int → RemoteClient) (p : Parsers) :
    ∀ (ds : List Int) (db : SyncDb),
      (syncActivityLoop clients p ds db).2 = ds.length := by
  intro ds
  induction ds with
  | nil => intro db; rfl
  | cons d ds ih => intro db; simp [syncActivityLoop, ih]

lemma syncActivityLoop_credentials (clients : Int → RemoteClient) (p : Parsers) :
    ∀ (ds : List Int) (db : SyncDb),
      (syncActivityLoop clients p ds db).1.credentials = db.credentials := by
  intro ds
  induction ds with
  | nil => intro db; rfl
  | cons d ds ih =>
    intro db
    simp only [syncActivityLoop]
    rw [ih, syncActivityDay_credentials]

lemma syncActivityLoop_dates_grows (clients : Int → RemoteClient) (p : Parsers) :
    ∀ (ds : List Int) (db : SyncDb),
      activityDates db <+: activityDates (syncActivityLoop clients p ds db).1 := by
  intro ds
  induction ds with
  | nil => intro db; exact List.prefix_refl _
  | cons d ds ih =>
    intro db
    simp only [syncActivityLoop]
    exact (syncActivityDay_dates_grows (clients d) p db d).trans
      (ih (syncActivityDay (clients d) p db d))

lemma syncActivityLoop_dates_mem (clients : Int → RemoteClient) (p : Parsers) :
    ∀ (ds : List Int) (db : SyncDb) (d : Int), d ∈ ds →
      d ∈ activityDates (syncActivityLoop clients p ds db).1 := by
  intro ds
  induction ds with
  | nil => intro db d h; cases h
  | cons a as ih =>
    intro db d h
    simp only [syncActivityLoop]
    rcases List.mem_cons.mp h with h | h
    · subst h
      exact (syncActivityLoop_dates_grows clients p as _).subset
        (syncActivityDay_dates_mem (clients d) p db d)
    · exact ih _ d h

lemma syncActivityLoop_dates_fresh (clients : Int → RemoteClient) (p : Parsers) :
    ∀ (ds : List Int) (db : SyncDb), (activityDates db ++ ds).Nodup →
      activityDates (syncActivityLoop clients p ds db).1 =
        activityDates db ++ ds := by
  intro ds
  induction ds with
  | nil => intro db _; simp [syncActivityLoop]
  | cons d ds ih =>
    intro db h
    have hd : d ∉ activityDates db := by
      intro hmem
      exact ((List.nodup_append.mp h).2.2 hmem) (List.mem_cons_self d ds)
    have hstep : activityDates (syncActivityDay (clients d) p db d) =
        activityDates db ++ [d] := by
      rw [syncActivityDay_dates, if_neg hd]
    have hnodup : (activityDates (syncActivityDay (clients d) p db d) ++ ds).Nodup := by
      rw [hstep, List.append_assoc]
      simpa using h
    simp only [syncActivityLoop]
    rw [ih _ hnodup, hstep, List.append_assoc]
    simp

lemma syncActivityLoop_dates_stable (clients : Int → RemoteClient) (p : Parsers) :
    ∀ (ds : List Int) (db : SyncDb), (∀ d ∈ ds, d ∈ activityDates db) →
      activityDates (syncActivityLoop clients p ds db).1 = activityDates db := by
  intro ds
  induction ds with
  | nil => intro db _; simp [syncActivityLoop]
  | cons d ds ih =>
    intro db h
    have hstep : activityDates (syncActivityDay (clients d) p db d) =
        activityDates db := by
      rw [syncActivityDay_dates, if_pos (h d (List.mem_cons_self d ds))]
    simp only [syncActivityLoop]
    rw [ih _ ?_, hstep]
    intro x hx
    rw [hstep]
    exact h x (List.mem_cons_of_mem d hx)

lemma syncStepsDay_credentials (client : RemoteClient) (db : SyncDb) (d : Int) :
    (syncStepsDay client db d).1.credentials = db.credentials := by
  unfold syncStepsDay
  repeat' split
  all_goals rfl

lemma syncStepsLoop_credentials (clients : Int → RemoteClient) :
    ∀ (ds : List Int) (db : SyncDb),
      (syncStepsLoop clients ds db).1.credentials = db.credentials := by
  intro ds
  induction ds with
  | nil => intro db; rfl
  | cons d ds ih =>
    intro db
    simp only [syncStepsLoop]
    rw [ih, syncStepsDay_credentials]

lemma syncHeartRateDay_credentials (client : RemoteClient) (p : Parsers)
    (db : SyncDb) (d : Int) :
    (syncHeartRateDay client p db d).1.credentials = db.credentials := by
  unfold syncHeartRateDay
  repeat' split
  all_goals rfl

lemma syncHeartRateLoop_credentials (clients : Int → RemoteClient) (p : Parsers) :
    ∀ (ds : List Int) (db : SyncDb),
      (syncHeartRateLoop clients p ds db).1.credentials = db.credentials := by
  intro ds
  induction ds with
  | nil => intro db; rfl
  | cons d ds ih =>
    intro db
    simp only [syncHeartRateLoop]
    rw [ih, syncHeartRateDay_credentials]

lemma sync_activity_data_eq_ok (clients : Int → RemoteClient) (p : Parsers)
    (today : Int) (daysBack : Nat) (db : SyncDb) (c : Credentials)
    (h : db.credentials = some c) :
    sync_activity_data clients p today daysBack db =
      .ok (syncActivityLoop clients p (dayRange today daysBack) db) := by
  simp [sync_activity_data, h]

lemma sync_steps_data_eq_ok (clients : Int → RemoteClient)
    (today : Int) (daysBack : Nat) (db : SyncDb) (c : Credentials)
    (h : db.credentials = some c) :
    sync_steps_data clients today daysBack db =
      .ok (syncStepsLoop clients (dayRange today daysBack) db) := by
  simp [sync_steps_data, h]

lemma sync_heart_rate_data_eq_ok (clients : Int → RemoteClient) (p : Parsers)
    (today : Int) (daysBack : Nat) (db : SyncDb) (c : Credentials)
    (h : db.credentials = some c) :
    sync_heart_rate_data clients p today daysBack db =
      .ok (syncHeartRateLoop clients p (dayRange today daysBack) db) := by
  simp [sync_heart_rate_data, h]

lemma sync_all_data_eq_ok (clients : Int → RemoteClient) (p : Parsers)
    (today : Int) (daysBack : Nat) (db : SyncDb) (now : Int) (c : Credentials)
    (hcc : db.credentials = some c) :
    sync_all_data clients p today daysBack db now =
      (let db1 : SyncDb :=
        { db with credentials := some { c with lastSync := some now } }
       let r1 := syncActivityLoop clients p (dayRange today daysBack) db1
       let r2 := syncStepsLoop clients (dayRange today daysBack) r1.1
       let r3 := syncHeartRateLoop clients p (dayRange today daysBack) r2.1
       .ok (r3.1,
         { activitySynced := r1.2, stepsSynced := r2.2,
           heartRateSynced := r3.2, sleepSynced := r1.2 },
         [SyncEvent.lastSyncUpdate]
           ++ (dayRange today daysBack).map SyncEvent.daySynced
           ++ (dayRange today daysBack).map SyncEvent.daySynced
           ++ (dayRange today daysBack).map SyncEvent.daySynced)) := by
  have h1 : ({ db with
      credentials := some { c with lastSync := some now } } : SyncDb).credentials =
      some { c with lastSync := some now } := rfl
  have h2 := (syncActivityLoop_credentials clients p (dayRange today daysBack)
    { db with credentials := some { c with lastSync := some now } }).trans h1
  have h3 := (syncStepsLoop_credentials clients (dayRange today daysBack)
    (syncActivityLoop clients p (dayRange today daysBack)
      { db with credentials := some { c with lastSync := some now } }).1).trans h2
  simp only [sync_all_data, hcc]
  rw [sync_activity_data_eq_ok clients p today daysBack _ _ h1]
  dsimp only
  rw [sync_steps_data_eq_ok clients today daysBack _ _ h2]
  dsimp only
  rw [sync_heart_rate_data_eq_ok clients p today daysBack _ _ h3]

lemma count_lastSync_map_daySynced (l : List Int) :
    (l.map SyncEvent.daySynced).count SyncEvent.lastSyncUpdate = 0 := by
  rw [List.count_eq_zero]
  intro h
  rcases List.mem_map.mp h with ⟨d, _, hd⟩
  exact SyncEvent.noConfusion hd

/-- C4, counterexample: after two identical backfills over the same
range with daysBack = 3 from an empty store the user holds 4 activity
rows, not the claimed 3 — the range today-3 .. today is inclusive on
both ends, so each run covers 4 days. -/
theorem sync_twice_rowcount_counterexample :
    runSyncTwice.toOption.map (fun x => x.1.activityRows.length) = some 4 ∧
    runSyncTwice.toOption.map (fun x => x.1.activityRows.length) ≠ some 3 := by
  constructor
  · decide
  · decide

/-- C4, amended: two consecutive backfills over the same range with
daysBack = 3 create no duplicate DailyActivityRecord rows — the second
invocation updates the first run's rows in place, keyed by (user, date)
— but each run covers the 4 days of the inclusive range, so the row
count stays at 4 (not 3), rather than doubling to 8. -/
theorem sync_range_idempotent_rowcount (clients : Int → RemoteClient)
    (p : Parsers) (today : Int) (db : SyncDb)
    (hc : db.credentials.isSome) (h0 : db.activityRows = []) :
    ∃ db1 db2 : SyncDb,
      sync_activity_data clients p today 3 db = .ok (db1, 4) ∧
      sync_activity_data clients p today 3 db1 = .ok (db2, 4) ∧
      db1.activityRows.length = 4 ∧
      db2.activityRows.length = 4 ∧
      (db1.activityRows.map (·.date)).Nodup := by
  obtain ⟨c, hcc⟩ := Option.isSome_iff_exists.mp hc
  have hd0 : activityDates db = [] := by simp [activityDates, h0]
  rcases hres1 : syncActivityLoop clients p (dayRange today 3) db with ⟨db1, n1⟩
  have hdates1 : activityDates db1 = dayRange today 3 := by
    have h := syncActivityLoop_dates_fresh clients p (dayRange today 3) db
      (by rw [hd0, List.nil_append]; exact dayRange_nodup today 3)
    rw [hres1] at h
    simpa [hd0] using h
  have hn1 : n1 = 4 := by
    have h := syncActivityLoop_count clients p (dayRange today 3) db
    rw [hres1] at h
    simpa [dayRange_length] using h
  have hcred1 : db1.credentials = some c := by
    have h := syncActivityLoop_credentials clients p (dayRange today 3) db
    rw [hres1] at h
    simpa [hcc] using h
  rcases hres2 : syncActivityLoop clients p (dayRange today 3) db1 with ⟨db2, n2⟩
  have hdates2 : activityDates db2 = activityDates db1 := by
    have h := syncActivityLoop_dates_stable clients p (dayRange today 3) db1
      (by intro x hx; rw [hdates1]; exact hx)
    rw [hres2] at h
    simpa using h
  have hn2 : n2 = 4 := by
    have h := syncActivityLoop_count clients p (dayRange today 3) db1
    rw [hres2] at h
    simpa [dayRange_length] using h
  have hlen1 : db1.activityRows.length = 4 := by
    have h := congrArg List.length hdates1
    simpa [activityDates, dayRange_length] using h
  refine ⟨db1, db2, ?_, ?_, hlen1, ?_, ?_⟩
  · rw [sync_activity_data_eq_ok clients p today 3 db c hcc, hres1, hn1]
  · rw [sync_activity_data_eq_ok clients p today 3 db1 c hcred1, hres2, hn2]
  · have h := congrArg List.length hdates2
    simpa [activityDates, hlen1] using h
  · have h : db1.activityRows.map (·.date) = dayRange today 3 := hdates1
    rw [h]
    exact dayRange_nodup today 3

/-- Witness for C4's amended statement at a concrete store and client. -/
theorem sync_range_idempotent_rowcount_witness :
    ∃ db1 db2 : SyncDb,
      sync_activity_data (fun _ => okEmptyClient) nullParsers 0 3 credsOnlyDb =
        .ok (db1, 4) ∧
      sync_activity_data (fun _ => okEmptyClient) nullParsers 0 3 db1 =
        .ok (db2, 4) ∧
      db1.activityRows.length = 4 ∧
      db2.activityRows.length = 4 ∧
      (db1.activityRows.map (·.date)).Nodup :=
  sync_range_idempotent_rowcount (fun _ => okEmptyClient) nullParsers 0
    credsOnlyDb rfl rfl

/-- C5, counterexample: with the remote fetch auth-rejected on exactly
one day of a 7-day range (daysBack = 6), the backfill still reports 7
synced days, not the claimed 6 — the failure is swallowed inside the
daily-summary routine, so the failing day is counted and persisted as an
empty record. -/
theorem backfill_one_failure_counterexample :
    (sync_activity_data oneFailClients nullParsers 6 6 credsOnlyDb).toOption.map
        (fun x => x.2) = some 7 ∧ (7 : Nat) ≠ 6 := by
  constructor
  · decide
  · decide

/-- C5, amended: the per-day loop never aborts the range and a remote
failure on some days never raises out of the loop body; the returned
count is always the full number of days in the range (daysBack + 1),
the failing days included, and every day of the range — failing or not —
ends with a stored activity row. -/
theorem backfill_counts_every_day (clients : Int → RemoteClient) (p : Parsers)
    (today : Int) (daysBack : Nat) (db : SyncDb) (hc : db.credentials.isSome) :
    ∃ db2, sync_activity_data clients p today daysBack db =
        .ok (db2, daysBack + 1) ∧
      ∀ d ∈ dayRange today daysBack, d ∈ db2.activityRows.map (·.date) := by
  obtain ⟨c, hcc⟩ := Option.isSome_iff_exists.mp hc
  rcases hres : syncActivityLoop clients p (dayRange today daysBack) db with ⟨db2, n⟩
  have hn : n = daysBack + 1 := by
    have h := syncActivityLoop_count clients p (dayRange today daysBack) db
    rw [hres] at h
    simpa [dayRange_length] using h
  refine ⟨db2, ?_, ?_⟩
  · rw [sync_activity_data_eq_ok clients p today daysBack db c hcc, hres, hn]
  · intro d hd
    have h := syncActivityLoop_dates_mem clients p (dayRange today daysBack) db d hd
    rw [hres] at h
    simpa [activityDates] using h

/-- Witness for C5's amended statement: one auth-failing day inside a
7-day range still yields a count of 7 with every day stored. -/
theorem backfill_counts_every_day_witness :
    ∃ db2, sync_activity_data oneFailClients nullParsers 6 6 credsOnlyDb =
        .ok (db2, 7) ∧
      ∀ d ∈ dayRange 6 6, d ∈ db2.activityRows.map (·.date) :=
  backfill_counts_every_day oneFailClients nullParsers 6 6 credsOnlyDb rfl

/-- C9, counterexample: in a concrete sync_all_data run the last-sync
update is the first trace event and every per-day event follows it, so
the update does not happen after the per-day loop completes. -/
theorem last_sync_order_counterexample :
    (sync_all_data (fun _ => okEmptyClient) nullParsers 0 0 credsOnlyDb
        99).toOption.map (fun x => x.2.2) =
      some [SyncEvent.lastSyncUpdate, SyncEvent.daySynced 0,
        SyncEvent.daySynced 0, SyncEvent.daySynced 0] ∧
    ¬ lastSyncAfterLoop [SyncEvent.lastSyncUpdate, SyncEvent.daySynced 0,
        SyncEvent.daySynced 0, SyncEvent.daySynced 0] := by
  constructor
  · decide
  · unfold lastSyncAfterLoop
    decide

/-- C9, amended: in every execution whose store holds a credentials row,
the last-sync timestamp is updated exactly once, and the update happens
at the start of the run, before the per-day loop, not after it. -/
theorem last_sync_updated_once_first (clients : Int → RemoteClient)
    (p : Parsers) (today : Int) (daysBack : Nat) (db : SyncDb) (now : Int)
    (hc : db.credentials.isSome) :
    ∃ out, sync_all_data clients p today daysBack db now = .ok out ∧
      out.2.2.head? = some SyncEvent.lastSyncUpdate ∧
      out.2.2.count SyncEvent.lastSyncUpdate = 1 := by
  obtain ⟨c, hcc⟩ := Option.isSome_iff_exists.mp hc
  rw [sync_all_data_eq_ok clients p today daysBack db now c hcc]
  refine ⟨_, rfl, rfl, ?_⟩
  simp [List.count_append, count_lastSync_map_daySynced]

/-- Witness for C9's amended statement at a concrete run. -/
theorem last_sync_updated_once_first_witness :
    ∃ out, sync_all_data (fun _ => okEmptyClient) nullParsers 0 0 credsOnlyDb 99 =
        .ok out ∧
      out.2.2.head? = some SyncEvent.lastSyncUpdate ∧
      out.2.2.count SyncEvent.lastSyncUpdate = 1 :=
  last_sync_updated_once_first (fun _ => okEmptyClient) nullParsers 0 0
    credsOnlyDb 99 rfl

/-- C10: whenever sync_all_data succeeds, the returned sleep count
equals the activity count — it is assigned the activity count rather
than computed independently, because sleep data is synced as part of
each day's activity record. -/
theorem sleep_count_equals_activity_count (clients : Int → RemoteClient)
    (p : Parsers) (today : Int) (daysBack : Nat) (db : SyncDb) (now : Int) :
    Option.all (fun out => out.2.1.sleepSynced == out.2.1.activitySynced)
      (sync_all_data clients p today daysBack db now).toOption = true := by
  cases hcc : db.credentials with
  | none =>
    have herr : sync_all_data clients p today daysBack db now = .error () := by
      simp [sync_all_data, hcc, sync_activity_data]
    rw [herr]
    rfl
  | some c =>
    rw [sync_all_data_eq_ok clients p today daysBack db now c hcc]
    simp [Option.all, Except.toOption]

end Healthup
